import Mathlib

/-!
Shallow embedding of the Pixology image-generation backend (TypeScript),
covering the generation orchestration pipeline:

* `buildEnhancedPrompt` (ImageGenerationService.buildEnhancedPrompt) — the
  prompt composer;
* `hasReachedDailyLimit` (ImageGenerationService.hasReachedDailyLimit) with
  `findMany` (GCPDatabaseService.findMany) — the quota gate;
* `generateImage` (ImageGenerationService.generateImage) — the orchestrator
  sequencing generation, artifact upload and metadata recording, with its
  catch-block failure compensation;
* `parseBase64DataUrl` / `base64Decode` (GCPStorageService.uploadBase64Image) —
  data-URL decoding for artifact upload;
* `controllerGenerateImage` and `getImageById` (imageController) — the HTTP
  controller layer.

External effects (the Gemini call, GCS upload, Firestore writes/reads) are
modelled by explicit fault-injection environments and by threading an explicit
system state (the list of Firestore documents in id order, and the list of
stored GCS artifacts).  JavaScript truthiness of strings (empty string is
falsy) and of numbers (0 is falsy) is modelled explicitly where the source
relies on it.  Timestamps are natural numbers.
-/

namespace Pixology

/-! ## Data model -/

/-- Image quality tier, from `StyleParams.quality` in `models/Image.ts`
(closed union `'standard' | 'high' | 'ultra'`). -/
inductive Quality where
  | standard
  | high
  | ultra
  deriving DecidableEq, Repr

/-- Requested image dimensions, from the `dimensions` field of `StyleParams`
in `models/Image.ts`. -/
structure Dimensions where
  width : Nat
  height : Nat
  deriving DecidableEq, Repr

/-- Style parameters (`StyleParams` in `models/Image.ts`): every field optional. -/
structure StyleParams where
  style : Option String := none
  colorScheme : Option String := none
  mood : Option String := none
  modifiers : Option (List String) := none
  dimensions : Option Dimensions := none
  quality : Option Quality := none
  deriving DecidableEq, Repr

/-- One document of the images collection, as written by
`ImageGenerationService.generateImage` (success path: lines 210-222; failure
path: lines 243-250).  Fields absent from a given write are `none`.
`createdAt` is the server stamp set by `GCPDatabaseService.create`. -/
structure RecordData where
  userId : String
  prompt : String
  styleParams : Option StyleParams := none
  gcsUrl : Option String := none
  gcsBucket : Option String := none
  gcsPath : Option String := none
  fileSize : Option Nat := none
  mimeType : Option String := none
  dimensions : Option Dimensions := none
  status : String
  errorMessage : Option String := none
  createdAt : Nat
  deriving DecidableEq, Repr

/-- The images collection: documents as `(id, data)` pairs, listed in
Firestore's default query order (ascending document id), which is the order
an un-ordered `.where(...).limit(n)` query returns them in. -/
abbrev ImageStore := List (String × RecordData)

/-! ## Prompt composer -/

/-- JavaScript truthiness of an optional string: `undefined` and `""` are
falsy, every non-empty string is truthy.  Used by the guards
`if (styleParams.style)` etc. in `buildEnhancedPrompt`. -/
def truthyStr : Option String → Bool
  | some s => !s.isEmpty
  | none => false

/-- The clause list pushed onto `styleModifiers` by
`ImageGenerationService.buildEnhancedPrompt`, in source order:
style, colorScheme, mood, then the free-form modifiers (spread verbatim).
Each `if (styleParams.f)` guard is JS truthiness; the modifiers guard is
`styleParams.modifiers && styleParams.modifiers.length > 0`. -/
def styleClauses (sp : StyleParams) : List String :=
  (match sp.style with
   | some s => if s.isEmpty then [] else ["in " ++ s ++ " style"]
   | none => []) ++
  (match sp.colorScheme with
   | some c => if c.isEmpty then [] else ["with " ++ c ++ " color scheme"]
   | none => []) ++
  (match sp.mood with
   | some m => if m.isEmpty then [] else [m ++ " mood"]
   | none => []) ++
  (match sp.modifiers with
   | some l => if l.isEmpty then [] else l
   | none => [])

/-- Model of `ImageGenerationService.buildEnhancedPrompt(basePrompt, styleParams?)`:
returns `basePrompt` unchanged when no style parameters are supplied or the
clause list is empty, otherwise appends the comma-joined clause list after
`", "`. -/
def buildEnhancedPrompt (basePrompt : String) (styleParams : Option StyleParams) : String :=
  match styleParams with
  | none => basePrompt
  | some sp =>
    let styleModifiers := styleClauses sp
    if styleModifiers.isEmpty then basePrompt
    else basePrompt ++ ", " ++ String.intercalate ", " styleModifiers

/-- A style field is "set" (in the sense the composer can observe) when its
guard in `buildEnhancedPrompt` passes: a truthy string for `style`,
`colorScheme`, `mood`, or a non-empty `modifiers` list. -/
def anyStyleFieldSet (sp : StyleParams) : Bool :=
  truthyStr sp.style || truthyStr sp.colorScheme || truthyStr sp.mood ||
    (match sp.modifiers with
     | some l => !l.isEmpty
     | none => false)

/-! ## Quota gate -/

/-- Model of `GCPDatabaseService.findMany(collection, 'userId', value, limit)`:
filters the collection to documents whose `userId` field equals `value` and,
when `limit` is truthy (non-zero — `if (limit)` in the source), returns only
the first `limit` matches in query order. -/
def findMany (records : ImageStore) (userId : String) (limit : Nat) :
    List (String × RecordData) :=
  let matching := records.filter fun p => p.2.userId == userId
  if limit = 0 then matching else matching.take limit

/-- Fault injection for the quota gate's read of the store:
`readFails = true` models `findMany` throwing (Firestore read failure). -/
structure QuotaEnv where
  readFails : Bool
  deriving DecidableEq, Repr

/-- Model of `ImageGenerationService.hasReachedDailyLimit(userId)`:
computes local midnight (`startOfDay`), fetches up to `dailyLimit + 1`
(`config.imageGeneration.maxImagesPerUserPerDay + 1`) of the user's records,
filters them to those with `createdAt >= startOfDay`, and returns whether the
filtered count is `>= dailyLimit`.  The surrounding try/catch returns `false`
on any read failure. -/
def hasReachedDailyLimit (env : QuotaEnv) (dailyLimit startOfDay : Nat)
    (records : ImageStore) (userId : String) : Bool :=
  if env.readFails then false
  else
    let images := findMany records userId (dailyLimit + 1)
    let todayImages := images.filter fun p => decide (startOfDay ≤ p.2.createdAt)
    decide (dailyLimit ≤ todayImages.length)

/-! ## Orchestrator: `ImageGenerationService.generateImage` -/

/-- Result of `GCPStorageService.uploadFile` / `uploadBase64Image`. -/
structure UploadResult where
  publicUrl : String
  bucket : String
  path : String
  size : Nat
  mimeType : String
  deriving DecidableEq, Repr

/-- The `ImageGenerationResult` payload returned by `generateImage` on success. -/
structure ImageGenerationResult where
  imageId : String
  imageUrl : String
  dimensions : Dimensions
  fileSize : Nat
  prompt : String
  styleParams : Option StyleParams
  deriving DecidableEq, Repr

/-- Fault injection for one orchestrator attempt's external calls:
* `genThrow` — `model.generateContent` throwing, with the thrown message;
* `numCandidates` — `response.candidates.length` when the call returns;
* `uploadOk` / `uploadResult` — outcome of `storageService.uploadBase64Image`
  (which throws the fixed message `'Base64 image upload failed'` on failure);
* `saveCompletedThrow` — the success-path `databaseService.create` throwing;
* `saveFailedThrow` — the catch-block `databaseService.create` throwing. -/
structure GenEnv where
  genThrow : Option String
  numCandidates : Nat
  uploadOk : Bool
  uploadResult : UploadResult
  saveCompletedThrow : Option String
  saveFailedThrow : Option String
  deriving DecidableEq, Repr

/-- External state touched by one attempt: the images collection and the set
of artifacts stored in GCS. -/
structure SystemState where
  records : ImageStore
  artifacts : List UploadResult
  deriving DecidableEq, Repr

/-- Which external calls an attempt made: the prompt passed to
`model.generateContent` (if the call was reached) and whether
`uploadBase64Image` was invoked. -/
structure Trace where
  sentPrompt : Option String
  uploadCalled : Bool
  deriving DecidableEq, Repr

/-- Value of `config.imageGeneration.defaultWidth` (default 1024). -/
def defaultWidth : Nat := 1024

/-- Value of `config.imageGeneration.defaultHeight` (default 1024). -/
def defaultHeight : Nat := 1024

/-- Effective dimensions `styleParams?.dimensions?.width || defaultWidth` (and likewise height):
JS `||` makes a requested dimension of 0 fall back to the default. -/
def effectiveDimensions (styleParams : Option StyleParams) : Dimensions where
  width :=
    match styleParams with
    | some sp =>
      match sp.dimensions with
      | some d => if d.width = 0 then defaultWidth else d.width
      | none => defaultWidth
    | none => defaultWidth
  height :=
    match styleParams with
    | some sp =>
      match sp.dimensions with
      | some d => if d.height = 0 then defaultHeight else d.height
      | none => defaultHeight
    | none => defaultHeight

/-- The failure record written by the catch block of `generateImage`
(lines 243-250): status `failed`, the primary error's message as
`errorMessage`, no artifact fields. -/
def failedRecordData (userId prompt : String) (styleParams : Option StyleParams)
    (errMsg : String) (now : Nat) : RecordData where
  userId := userId
  prompt := prompt
  styleParams := styleParams
  status := "failed"
  errorMessage := some errMsg
  createdAt := now

/-- The success record written by `generateImage` (lines 210-222): status
`completed` with the artifact reference fields from the upload result. -/
def completedRecordData (userId prompt : String) (styleParams : Option StyleParams)
    (up : UploadResult) (dims : Dimensions) (now : Nat) : RecordData where
  userId := userId
  prompt := prompt
  styleParams := styleParams
  gcsUrl := some up.publicUrl
  gcsBucket := some up.bucket
  gcsPath := some up.path
  fileSize := some up.size
  mimeType := some up.mimeType
  dimensions := some dims
  status := "completed"
  createdAt := now

/-- The catch block of `generateImage` (lines 238-256): best-effort write of
the failure record (its own failure is swallowed and only logged), then
`throw new Error('Image generation failed')`. -/
def recordFailureAndRethrow (env : GenEnv) (userId prompt : String)
    (styleParams : Option StyleParams) (imageId : String) (now : Nat)
    (st : SystemState) (errMsg : String) :
    Except String ImageGenerationResult × SystemState :=
  match env.saveFailedThrow with
  | some _ => (Except.error "Image generation failed", st)
  | none =>
    (Except.error "Image generation failed",
     { st with records := st.records ++
         [(imageId, failedRecordData userId prompt styleParams errMsg now)] })

/-- Model of `ImageGenerationService.generateImage(userId, prompt, styleParams?)`
(lines 146-257).  `imageId` is the UUID generated at the start of the
attempt; `now` the current timestamp.  The try block: build the enhanced
prompt, call the model (an empty candidate list throws
`'No image generated from Gemini API'`), upload the image, resolve effective
dimensions, save the completed record; any throw lands in
`recordFailureAndRethrow`. -/
def generateImage (env : GenEnv) (userId prompt : String)
    (styleParams : Option StyleParams) (imageId : String) (now : Nat)
    (st : SystemState) :
    Except String ImageGenerationResult × SystemState × Trace :=
  let enhancedPrompt := buildEnhancedPrompt prompt styleParams
  match env.genThrow with
  | some m =>
    let r := recordFailureAndRethrow env userId prompt styleParams imageId now st m
    (r.1, r.2, ⟨some enhancedPrompt, false⟩)
  | none =>
    if env.numCandidates = 0 then
      let r := recordFailureAndRethrow env userId prompt styleParams imageId now st
        "No image generated from Gemini API"
      (r.1, r.2, ⟨some enhancedPrompt, false⟩)
    else if env.uploadOk then
      let up := env.uploadResult
      let st1 : SystemState := { st with artifacts := st.artifacts ++ [up] }
      let dims := effectiveDimensions styleParams
      match env.saveCompletedThrow with
      | some m =>
        let r := recordFailureAndRethrow env userId prompt styleParams imageId now st1 m
        (r.1, r.2, ⟨some enhancedPrompt, true⟩)
      | none =>
        (Except.ok
          { imageId := imageId, imageUrl := up.publicUrl, dimensions := dims,
            fileSize := up.size, prompt := prompt, styleParams := styleParams },
         { st1 with records := st1.records ++
             [(imageId, completedRecordData userId prompt styleParams up dims now)] },
         ⟨some enhancedPrompt, true⟩)
    else
      let r := recordFailureAndRethrow env userId prompt styleParams imageId now st
        "Base64 image upload failed"
      (r.1, r.2, ⟨some enhancedPrompt, true⟩)

/-- The message of the primary failure on the generation/upload failure
paths: the model call's own thrown message, the fixed
`'No image generated from Gemini API'` for an empty candidate list, or the
fixed `'Base64 image upload failed'` thrown by the upload adapter. -/
def primaryErrorMessage (env : GenEnv) : String :=
  match env.genThrow with
  | some m => m
  | none =>
    if env.numCandidates = 0 then "No image generated from Gemini API"
    else "Base64 image upload failed"

/-! ## Controller layer: `imageController` -/

/-- HTTP responses of `imageController.generateImage`, with the body's error
message where one is sent. -/
inductive ApiResponse where
  | unauthenticated
  | badRequest (msg : String)
  | quotaExceeded (msg : String)
  | created (body : ImageGenerationResult)
  | serverError (msg : String)
  deriving DecidableEq, Repr

/-- Model of `imageController.generateImage` (lines 24-99): 401 when unauthenticated,
400 for a missing/blank prompt (`!prompt || prompt.trim().length === 0`,
modelled as the prompt consisting only of whitespace), 429 when
`hasReachedDailyLimit` reports the limit reached, otherwise runs the
orchestrator; its success is a 201, any error it throws becomes a 500 with a
fixed generic body. -/
def controllerGenerateImage (qenv : QuotaEnv) (genv : GenEnv)
    (dailyLimit startOfDay now : Nat) (user : Option String) (prompt : String)
    (styleParams : Option StyleParams) (imageId : String) (st : SystemState) :
    ApiResponse × SystemState × Trace :=
  match user with
  | none => (ApiResponse.unauthenticated, st, ⟨none, false⟩)
  | some userId =>
    if prompt.data.all Char.isWhitespace then
      (ApiResponse.badRequest "Prompt is required", st, ⟨none, false⟩)
    else if hasReachedDailyLimit qenv dailyLimit startOfDay st.records userId then
      (ApiResponse.quotaExceeded
        "Daily image generation limit reached. Please try again tomorrow.",
       st, ⟨none, false⟩)
    else
      match generateImage genv userId prompt styleParams imageId now st with
      | (Except.ok r, st', tr) => (ApiResponse.created r, st', tr)
      | (Except.error _, st', tr) =>
        (ApiResponse.serverError "Image generation failed. Please try again.", st', tr)

/-- Responses of `imageController.getImageById`. -/
inductive GetImageResponse where
  | unauthenticated
  | notFound
  | forbidden
  | found (id : String) (data : RecordData)
  | serverError
  deriving DecidableEq, Repr

/-- Model of `GCPDatabaseService.findById(collection, id)`: `null` when the document
does not exist, otherwise `{id: doc.id, ...doc.data()}`. -/
def findById (records : ImageStore) (id : String) : Option (String × RecordData) :=
  records.find? fun p => p.1 == id

/-- Model of `imageController.getImageById` (lines 151-200): 401 when
unauthenticated; a throwing read becomes a 500; a missing document a 404;
a document owned by another user (`image.userId !== userId`) a 403; otherwise
the record is returned. -/
def getImageById (readFails : Bool) (user : Option String) (imageId : String)
    (records : ImageStore) : GetImageResponse :=
  match user with
  | none => GetImageResponse.unauthenticated
  | some userId =>
    if readFails then GetImageResponse.serverError
    else
      match findById records imageId with
      | none => GetImageResponse.notFound
      | some (rid, data) =>
        if data.userId != userId then GetImageResponse.forbidden
        else GetImageResponse.found rid data

/-! ## Artifact store: data-URL decoding in `GCPStorageService.uploadBase64Image` -/

/-- JavaScript `String.prototype.startsWith`. -/
def strStartsWith (s pre : String) : Bool :=
  pre.data.isPrefixOf s.data

/-- A character matched by `.` in a JavaScript regex without the `s` flag:
anything except the four line terminators. -/
def jsDotChar (c : Char) : Bool :=
  c != '\n' && c != '\r' && c.toNat != 0x2028 && c.toNat != 0x2029

/-- The match of `/^data:([^;]+);base64,(.+)$/` against `s`: the MIME group
(the maximal non-empty run of non-`;` characters after `data:`) and the
payload group (the non-empty remainder after a literal `;base64,`), or no
match. -/
def dataUrlMatch (s : String) : Option (String × String) :=
  if strStartsWith s "data:" then
    let rest := s.data.drop 5
    let mime := rest.takeWhile fun c => c != ';'
    let rest2 := rest.dropWhile fun c => c != ';'
    if mime.isEmpty then none
    else if ";base64,".data.isPrefixOf rest2 then
      let payload := rest2.drop 8
      if payload.isEmpty then none
      else if payload.all jsDotChar then
        some (String.mk mime, String.mk payload)
      else none
    else none
  else none

/-- The decoding prologue of `GCPStorageService.uploadBase64Image`
(UserService.ts lines 461-488): MIME type defaults to `image/png` and the
whole input is taken as base64 content, unless the input starts with `data:`
and the data-URL regex matches, in which case the two capture groups are used
(each with its dead `|| fallback`). -/
def parseBase64DataUrl (base64Data : String) : String × String :=
  let mimeType := "image/png"
  let base64Content := base64Data
  if strStartsWith base64Data "data:" then
    match dataUrlMatch base64Data with
    | some (m, p) =>
      ((if m.isEmpty then "image/png" else m), (if p.isEmpty then "" else p))
    | none => (mimeType, base64Content)
  else (mimeType, base64Content)

/-- Value of a base64 alphabet character, `none` for any other character
(which Node's `Buffer.from(_, 'base64')` skips). -/
def base64CharVal (c : Char) : Option Nat :=
  if 'A' ≤ c ∧ c ≤ 'Z' then some (c.toNat - 65)
  else if 'a' ≤ c ∧ c ≤ 'z' then some (c.toNat - 97 + 26)
  else if '0' ≤ c ∧ c ≤ '9' then some (c.toNat - 48 + 52)
  else if c = '+' then some 62
  else if c = '/' then some 63
  else none

/-- Packs a list of 6-bit values into bytes, dropping trailing bits that do
not fill a byte (base64 tail handling). -/
def bytesFromSextets : List Nat → List Nat
  | a :: b :: c :: d :: rest =>
    (a * 4 + b / 16) :: ((b % 16) * 16 + c / 4) :: ((c % 4) * 64 + d) ::
      bytesFromSextets rest
  | [a, b] => [a * 4 + b / 16]
  | [a, b, c] => [a * 4 + b / 16, (b % 16) * 16 + c / 4]
  | _ => []

/-- Model of `Buffer.from(s, 'base64')` as a byte list: non-alphabet characters
(padding included) are skipped, the remaining sextets are packed into
bytes. -/
def base64Decode (s : String) : List Nat :=
  bytesFromSextets (s.data.filterMap base64CharVal)

/-! ## Concrete inputs used by counterexamples and witnesses -/

/-- A store for the C4 counterexample: user `u` has two older records (ids
`a`, `b`, created before midnight 100) and exactly one record created today
(id `c`, created at 150). -/
def crowdedStore : ImageStore :=
  [("a", { userId := "u", prompt := "p", status := "completed", createdAt := 0 }),
   ("b", { userId := "u", prompt := "p", status := "completed", createdAt := 0 }),
   ("c", { userId := "u", prompt := "p", status := "completed", createdAt := 150 })]

/-- A concrete upload result. -/
def exUpload : UploadResult where
  publicUrl := "https://storage.example.com/users/u1/images/generated-img-1.png"
  bucket := "pixology-images"
  path := "users/u1/images/generated-img-1.png"
  size := 42
  mimeType := "image/png"

/-- An environment in which the model call itself throws and the
compensating write succeeds. -/
def exFailEnv : GenEnv where
  genThrow := some "upstream model exploded"
  numCandidates := 0
  uploadOk := true
  uploadResult := exUpload
  saveCompletedThrow := none
  saveFailedThrow := none

/-- An environment in which generation and upload succeed but the final
success-path metadata save throws; the compensating write succeeds. -/
def orphanEnv : GenEnv where
  genThrow := none
  numCandidates := 1
  uploadOk := true
  uploadResult := exUpload
  saveCompletedThrow := some "firestore write failed"
  saveFailedThrow := none

/-- A store holding one image for each of two users. -/
def ownStore : ImageStore :=
  [("i1", { userId := "u1", prompt := "a cat", status := "completed", createdAt := 150 }),
   ("i2", { userId := "u2", prompt := "a dog", status := "completed", createdAt := 150 })]

/-! ## Theorems -/

/-- The clause list is empty exactly when no style field is set (in the
truthiness sense of the composer's guards). -/
lemma styleClauses_eq_nil_iff (sp : StyleParams) :
    styleClauses sp = [] ↔ anyStyleFieldSet sp = false := by
  rcases sp with ⟨s, c, m, mods, d, q⟩
  cases s <;> cases c <;> cases m <;> cases mods <;>
    simp [styleClauses, anyStyleFieldSet, truthyStr, and_assoc]

/-- C3: for every base prompt and every style-parameter combination, the
composer's output starts with the exact base prompt string, and when at least
one style field is set (its truthiness guard passes), the output equals the
base prompt followed by `", "` and the comma-joined clause list built in the
fixed order style, colorScheme, mood, then each free-form modifier verbatim,
with missing fields skipped. -/
theorem buildEnhancedPrompt_prefix_and_clauses (basePrompt : String)
    (styleParams : Option StyleParams) :
    (∃ suffix, buildEnhancedPrompt basePrompt styleParams = basePrompt ++ suffix) ∧
    (∀ sp, styleParams = some sp → anyStyleFieldSet sp = true →
      buildEnhancedPrompt basePrompt styleParams =
        basePrompt ++ ", " ++ String.intercalate ", " (styleClauses sp)) := by
  constructor
  · cases styleParams with
    | none => exact ⟨"", (String.append_empty basePrompt).symm⟩
    | some sp =>
      by_cases h : (styleClauses sp).isEmpty
      · exact ⟨"", by simp [buildEnhancedPrompt, h, String.append_empty]⟩
      · exact ⟨", " ++ String.intercalate ", " (styleClauses sp), by
          simp [buildEnhancedPrompt, h, String.append_assoc]⟩
  · rintro sp rfl hset
    have hne : styleClauses sp ≠ [] := by
      intro hnil
      rw [(styleClauses_eq_nil_iff sp).mp hnil] at hset
      exact Bool.false_ne_true hset
    simp [buildEnhancedPrompt, List.isEmpty_iff, hne]

/-- Witness for C3 at the spec's own example:
`Build("a cat", {style:"realistic", mood:"calm"}) = "a cat, in realistic style, calm mood"`. -/
theorem buildEnhancedPrompt_prefix_and_clauses_witness :
    buildEnhancedPrompt "a cat" (some { style := some "realistic", mood := some "calm" }) =
      "a cat, in realistic style, calm mood" := by
  have h := (buildEnhancedPrompt_prefix_and_clauses "a cat"
      (some { style := some "realistic", mood := some "calm" })).2
    { style := some "realistic", mood := some "calm" } rfl (by decide)
  rw [h]
  decide

/-- C8: `Build(prompt, undefined) = prompt`, `Build(prompt, {}) = prompt`, and
whenever the clause list built from the style parameters is empty, the output
equals the unmodified base prompt. -/
theorem buildEnhancedPrompt_empty (p : String) :
    buildEnhancedPrompt p none = p ∧
    buildEnhancedPrompt p (some {}) = p ∧
    ∀ sp : StyleParams, styleClauses sp = [] → buildEnhancedPrompt p (some sp) = p := by
  refine ⟨rfl, ?_, ?_⟩
  · simp [buildEnhancedPrompt, styleClauses]
  · intro sp h
    simp [buildEnhancedPrompt, h]

/-- Witness for C8 at a concrete input whose clause list is empty without the
parameters being `{}` (an empty-string style field is skipped). -/
theorem buildEnhancedPrompt_empty_witness :
    buildEnhancedPrompt "a cat" (some { style := some "" }) = "a cat" :=
  (buildEnhancedPrompt_empty "a cat").2.2 { style := some "" } (by decide)

/-- Counterexample to C4: with `dailyLimit = 1` and midnight at 100, user `u`
has exactly `dailyLimit` records created today in `crowdedStore`, yet
`hasReachedDailyLimit` returns `false`: the un-ordered fetch of
`dailyLimit + 1` documents returns the two older documents first and the
today-record is never seen. -/
theorem hasReachedDailyLimit_crowding_counterexample :
    ((crowdedStore.filter fun p =>
        p.2.userId == "u" && decide (100 ≤ p.2.createdAt)).length = 1) ∧
    hasReachedDailyLimit ⟨false⟩ 1 100 crowdedStore "u" = false := by
  decide

/-- C4 (amended): provided the fetch of `dailyLimit + 1` documents misses no
record of the user — in particular whenever the user has at most
`dailyLimit + 1` records in the store — a user with exactly `dailyLimit`
records created today gets `true` and a user with exactly `dailyLimit - 1`
gets `false`. -/
theorem hasReachedDailyLimit_boundary (dailyLimit startOfDay : Nat)
    (records : ImageStore) (userId : String)
    (hpos : 1 ≤ dailyLimit)
    (hfetch : (records.filter fun p => p.2.userId == userId).length ≤ dailyLimit + 1) :
    (((records.filter fun p => p.2.userId == userId).filter
        fun p => decide (startOfDay ≤ p.2.createdAt)).length = dailyLimit →
      hasReachedDailyLimit ⟨false⟩ dailyLimit startOfDay records userId = true) ∧
    (((records.filter fun p => p.2.userId == userId).filter
        fun p => decide (startOfDay ≤ p.2.createdAt)).length = dailyLimit - 1 →
      hasReachedDailyLimit ⟨false⟩ dailyLimit startOfDay records userId = false) := by
  have htake : (records.filter fun p => p.2.userId == userId).take (dailyLimit + 1)
      = records.filter fun p => p.2.userId == userId :=
    List.take_of_length_le hfetch
  have hform : hasReachedDailyLimit ⟨false⟩ dailyLimit startOfDay records userId
      = decide (dailyLimit ≤ ((records.filter fun p => p.2.userId == userId).filter
          fun p => decide (startOfDay ≤ p.2.createdAt)).length) := by
    simp only [hasReachedDailyLimit, findMany]
    rw [if_neg (by simp)]
    simp only [if_neg (Nat.succ_ne_zero dailyLimit), htake]
  refine ⟨fun hcount => ?_, fun hcount => ?_⟩
  · rw [hform, hcount]
    simp
  · rw [hform, hcount]
    simp
    omega

/-- Witness for the amended C4: with `dailyLimit = 1`, a user whose single
record was created today has reached the limit. -/
theorem hasReachedDailyLimit_boundary_witness :
    hasReachedDailyLimit ⟨false⟩ 1 100
      [("c", { userId := "u", prompt := "p", status := "completed", createdAt := 150 })]
      "u" = true :=
  (hasReachedDailyLimit_boundary 1 100
      [("c", { userId := "u", prompt := "p", status := "completed", createdAt := 150 })]
      "u" (by decide) (by decide)).1 (by decide)

/-- C6: on any read failure of the underlying store, the quota gate fails
open — `hasReachedDailyLimit` returns `false` rather than propagating the
error. -/
theorem hasReachedDailyLimit_fails_open (env : QuotaEnv)
    (dailyLimit startOfDay : Nat) (records : ImageStore) (userId : String)
    (h : env.readFails = true) :
    hasReachedDailyLimit env dailyLimit startOfDay records userId = false := by
  simp [hasReachedDailyLimit, h]

/-- Witness for C6: a failing read reports "not reached" even for a user whose
records are at the limit. -/
theorem hasReachedDailyLimit_fails_open_witness :
    hasReachedDailyLimit ⟨true⟩ 1 100
      [("c", { userId := "u", prompt := "p", status := "completed", createdAt := 150 })]
      "u" = false :=
  hasReachedDailyLimit_fails_open ⟨true⟩ 1 100
    [("c", { userId := "u", prompt := "p", status := "completed", createdAt := 150 })]
    "u" rfl

/-- C1: on every attempt whose generation call or artifact upload fails, the
orchestrator throws the generic failure; when the compensating write
succeeds, exactly one failure record is appended, keyed by the attempt id
generated at the start, with status `failed` and the primary error's message
as summary; when the compensating write itself throws, the store is unchanged
and the caller still receives the (generic wrapper of the) primary failure,
never the secondary one. -/
theorem generateImage_failure_compensation (env : GenEnv) (userId prompt : String)
    (styleParams : Option StyleParams) (imageId : String) (now : Nat) (st : SystemState)
    (hfail : env.genThrow.isSome ∨ env.numCandidates = 0 ∨ env.uploadOk = false) :
    (generateImage env userId prompt styleParams imageId now st).1 =
      Except.error "Image generation failed" ∧
    (env.saveFailedThrow = none →
      (generateImage env userId prompt styleParams imageId now st).2.1.records =
        st.records ++ [(imageId,
          failedRecordData userId prompt styleParams (primaryErrorMessage env) now)]) ∧
    (env.saveFailedThrow ≠ none →
      (generateImage env userId prompt styleParams imageId now st).2.1.records =
        st.records) ∧
    (failedRecordData userId prompt styleParams (primaryErrorMessage env) now).status =
      "failed" ∧
    (failedRecordData userId prompt styleParams (primaryErrorMessage env) now).errorMessage =
      some (primaryErrorMessage env) := by
  rcases env with ⟨gt, nc, uo, ur, sct, sft⟩
  rcases gt with _ | m
  · rcases hfail with h | h | h
    · simp at h
    · simp only at h
      subst h
      cases sft <;>
        simp [generateImage, recordFailureAndRethrow, primaryErrorMessage, failedRecordData]
    · simp only at h
      subst h
      by_cases hnc : nc = 0
      · subst hnc
        cases sft <;>
          simp [generateImage, recordFailureAndRethrow, primaryErrorMessage, failedRecordData]
      · cases sft <;>
          simp [generateImage, recordFailureAndRethrow, primaryErrorMessage,
            failedRecordData, hnc]
  · cases sft <;>
      simp [generateImage, recordFailureAndRethrow, primaryErrorMessage, failedRecordData]

/-- Witness for C1: a throwing model call surfaces as the generic failure. -/
theorem generateImage_failure_compensation_witness :
    (generateImage exFailEnv "u1" "sunset" none "img-1" 100 ⟨[], []⟩).1 =
      Except.error "Image generation failed" :=
  (generateImage_failure_compensation exFailEnv "u1" "sunset" none "img-1" 100 ⟨[], []⟩
    (Or.inl (by decide))).1

/-- Counterexample to C2's "no corresponding record for that attempt id":
when generation and upload succeed and only the success-path save fails, the
catch block's best-effort compensating write can succeed, leaving a `failed`
record keyed by the attempt id — so a record for that id does exist (while
the stored artifact remains unreferenced by it). -/
theorem generateImage_orphan_record_counterexample :
    (generateImage orphanEnv "u1" "sunset" none "img-1" 100 ⟨[], []⟩).1 =
      Except.error "Image generation failed" ∧
    (generateImage orphanEnv "u1" "sunset" none "img-1" 100 ⟨[], []⟩).2.1.artifacts =
      [exUpload] ∧
    ((generateImage orphanEnv "u1" "sunset" none "img-1" 100 ⟨[], []⟩).2.1.records.map
      Prod.fst) = ["img-1"] := by
  refine ⟨rfl, by decide, by decide⟩

/-- C2 (amended): when generation and artifact storage succeed but the final
success-path metadata save fails, the orchestrator fails the whole attempt
(the caller gets the generic failure, not a success result), the stored
artifact remains in the blob store, and no record for the attempt id
references it: any record written for the attempt id is a `failed` record
with no artifact URL (and when the compensating write also fails, no record
for the id exists at all). -/
theorem generateImage_orphaned_artifact (env : GenEnv) (userId prompt : String)
    (styleParams : Option StyleParams) (imageId : String) (now : Nat) (st : SystemState)
    (hgen : env.genThrow = none) (hnc : env.numCandidates ≠ 0)
    (hup : env.uploadOk = true) (hsave : env.saveCompletedThrow ≠ none)
    (hfresh : ∀ p ∈ st.records, p.1 ≠ imageId) :
    (generateImage env userId prompt styleParams imageId now st).1 =
      Except.error "Image generation failed" ∧
    (generateImage env userId prompt styleParams imageId now st).2.1.artifacts =
      st.artifacts ++ [env.uploadResult] ∧
    ∀ p ∈ (generateImage env userId prompt styleParams imageId now st).2.1.records,
      p.1 = imageId → p.2.status = "failed" ∧ p.2.gcsUrl = none := by
  rcases env with ⟨gt, nc, uo, ur, sct, sft⟩
  rcases gt with _ | m
  · rcases uo
    · simp at hup
    · rcases sct with _ | msave
      · exact absurd rfl hsave
      · cases sft with
        | none =>
          refine ⟨by simp [generateImage, recordFailureAndRethrow, hnc],
            by simp [generateImage, recordFailureAndRethrow, hnc], ?_⟩
          intro p hp hpid
          have hp' : p ∈ st.records ∨
              p = (imageId, failedRecordData userId prompt styleParams msave now) := by
            simpa [generateImage, recordFailureAndRethrow, hnc] using hp
          rcases hp' with hmem | rfl
          · exact absurd hpid (hfresh p hmem)
          · exact ⟨rfl, rfl⟩
        | some a =>
          refine ⟨by simp [generateImage, recordFailureAndRethrow, hnc],
            by simp [generateImage, recordFailureAndRethrow, hnc], ?_⟩
          intro p hp hpid
          have hmem : p ∈ st.records := by
            simpa [generateImage, recordFailureAndRethrow, hnc] using hp
          exact absurd hpid (hfresh p hmem)
  · simp at hgen

/-- Witness for the amended C2: on the final-save-failure path the artifact
is stored (and, per the theorem, referenced by no record of the attempt). -/
theorem generateImage_orphaned_artifact_witness :
    (generateImage orphanEnv "u1" "sunset" none "img-1" 100 ⟨[], []⟩).2.1.artifacts =
      [exUpload] :=
  (generateImage_orphaned_artifact orphanEnv "u1" "sunset" none "img-1" 100 ⟨[], []⟩
    rfl (by decide) rfl (by decide) (by simp)).2.1

/-- C9: every failing attempt surfaces to the caller with the same fixed
generic message — `'Image generation failed'` from the orchestrator, and
`'Image generation failed. Please try again.'` in the controller's 500 body —
regardless of which internal step failed or what the raw upstream error
detail was; the upstream detail never appears in the caller-visible value. -/
theorem generateImage_error_message_generic :
    (∀ (env : GenEnv) (userId prompt : String) (styleParams : Option StyleParams)
        (imageId : String) (now : Nat) (st : SystemState) (e : String),
      (generateImage env userId prompt styleParams imageId now st).1 = Except.error e →
        e = "Image generation failed") ∧
    (∀ (qenv : QuotaEnv) (genv : GenEnv) (dailyLimit startOfDay now : Nat)
        (user : Option String) (prompt : String) (styleParams : Option StyleParams)
        (imageId : String) (st : SystemState) (m : String),
      (controllerGenerateImage qenv genv dailyLimit startOfDay now user prompt styleParams
          imageId st).1 = ApiResponse.serverError m →
        m = "Image generation failed. Please try again.") := by
  constructor
  · intro env userId prompt styleParams imageId now st e h
    rcases env with ⟨gt, nc, uo, ur, sct, sft⟩
    rcases gt with _ | m <;>
      by_cases hnc : nc = 0 <;>
      cases uo <;> cases sct <;> cases sft <;>
      simp_all [generateImage, recordFailureAndRethrow]
  · intro qenv genv dl sod now user prompt sp imageId st m h
    rcases user with _ | uid
    · simp [controllerGenerateImage] at h
    · simp only [controllerGenerateImage] at h
      split at h
      · simp at h
      · split at h
        · simp at h
        · split at h <;> simp_all

/-- Witness for C9: two distinct internal faults (a model throw with its own
message, and an empty candidate list) both surface as the same generic
message. -/
theorem generateImage_error_message_generic_witness :
    ("Image generation failed" : String) = "Image generation failed" ∧
    ("Image generation failed" : String) = "Image generation failed" :=
  ⟨generateImage_error_message_generic.1 exFailEnv "u1" "sunset" none "img-1" 100
      ⟨[], []⟩ "Image generation failed" rfl,
   generateImage_error_message_generic.1 ⟨none, 0, true, exUpload, none, none⟩ "u1"
      "sunset" none "img-1" 100 ⟨[], []⟩ "Image generation failed" rfl⟩

/-- C5: a request by an authenticated user with a non-blank prompt who has
already reached the daily limit is rejected with the 429 quota response
before any external generation or storage call is made: the system state
(including the record store) is returned unchanged and the trace shows no
model call and no upload call. -/
theorem controller_quota_rejection (qenv : QuotaEnv) (genv : GenEnv)
    (dailyLimit startOfDay now : Nat) (userId prompt : String)
    (styleParams : Option StyleParams) (imageId : String) (st : SystemState)
    (hprompt : prompt.data.all Char.isWhitespace = false)
    (hquota : hasReachedDailyLimit qenv dailyLimit startOfDay st.records userId = true) :
    controllerGenerateImage qenv genv dailyLimit startOfDay now (some userId) prompt
        styleParams imageId st =
      (ApiResponse.quotaExceeded
        "Daily image generation limit reached. Please try again tomorrow.",
       st, ⟨none, false⟩) := by
  simp [controllerGenerateImage, hprompt, hquota]

/-- Witness for C5: user `u2` already has `dailyLimit = 1` records today, so
the request is rejected with the store untouched and no external calls. -/
theorem controller_quota_rejection_witness :
    controllerGenerateImage ⟨false⟩ exFailEnv 1 100 200 (some "u2") "sunset" none "img-9"
        ⟨ownStore, []⟩ =
      (ApiResponse.quotaExceeded
        "Daily image generation limit reached. Please try again tomorrow.",
       ⟨ownStore, []⟩, ⟨none, false⟩) :=
  controller_quota_rejection ⟨false⟩ exFailEnv 1 100 200 "u2" "sunset" none "img-9"
    ⟨ownStore, []⟩ (by decide) (by decide)

/-- C7: the data-URL input `"data:image/jpeg;base64,AAAA"` yields MIME type
`image/jpeg` with base64 content `"AAAA"` (which decodes to the bytes
`[0, 0, 0]`), and every input without a `data:` prefix is passed through
whole as raw base64 content with the default MIME type `image/png`. -/
theorem uploadBase64Image_decoding :
    parseBase64DataUrl "data:image/jpeg;base64,AAAA" = ("image/jpeg", "AAAA") ∧
    base64Decode "AAAA" = [0, 0, 0] ∧
    ∀ s : String, strStartsWith s "data:" = false →
      parseBase64DataUrl s = ("image/png", s) := by
  refine ⟨by decide, by decide, ?_⟩
  intro s h
  simp [parseBase64DataUrl, h]

/-- Witness for C7: a raw-base64 input (no `data:` prefix) is passed through
with the default MIME type. -/
theorem uploadBase64Image_decoding_witness :
    parseBase64DataUrl "iVBORw0KGgo" = ("image/png", "iVBORw0KGgo") :=
  uploadBase64Image_decoding.2.2 "iVBORw0KGgo" (by decide)

/-- C10: for an authenticated caller (with a non-throwing read), the
get-image-by-id operation returns the record only when its `userId` equals
the caller's id; an existing record owned by a different user yields the
Forbidden response without the record, and a missing record yields
NotFound. -/
theorem getImageById_ownership (records : ImageStore) (uid imageId : String) :
    (findById records imageId = none →
      getImageById false (some uid) imageId records = GetImageResponse.notFound) ∧
    (∀ rid data, findById records imageId = some (rid, data) →
      (data.userId = uid →
        getImageById false (some uid) imageId records = GetImageResponse.found rid data) ∧
      (data.userId ≠ uid →
        getImageById false (some uid) imageId records = GetImageResponse.forbidden)) := by
  constructor
  · intro h
    simp [getImageById, h]
  · intro rid data h
    constructor
    · intro he
      simp [getImageById, h, he]
    · intro hne
      simp [getImageById, h, hne]

/-- Witness for C10: user `u1` asking for `u2`'s image `i2` is refused with
Forbidden. -/
theorem getImageById_ownership_witness :
    getImageById false (some "u1") "i2" ownStore = GetImageResponse.forbidden :=
  ((getImageById_ownership ownStore "u1" "i2").2 "i2"
    { userId := "u2", prompt := "a dog", status := "completed", createdAt := 150 }
    (by decide)).2 (by decide)

end Pixology
